import Mathlib

/-!
Shallow embedding of the Opus codec adapter in
src/jni/opus/pj_sources/pj_opus.c.

The external collaborators (the Opus engine, the pjmedia framework, the
pool and mutex services) are modelled as parameters: engine calls become
function arguments returning the engine result, and the arguments the
adapter passes to the engine are reified into call records so that
theorems can speak about them.  Machine integers that can be negative
(engine return codes) are Int; unsigned sizes are Nat.
-/

/-- Status codes of the adapter layer.  The concrete numeric values of
these pjlib/pjmedia constants live in headers outside this repository;
only their identities matter here, so they are constructors.  The
`other` constructor carries a framework status passed through
unchanged (the registration result in the factory init path). -/
inductive PjStatus where
  | success
  | einval
  | enomem
  | einvalidop
  | enotsup
  | epcmTooShort
  | efailed
  | ebadBitstream
  | mediaError
  | eunsup
  | other (code : Int)
deriving DecidableEq, Repr

/-- Opus engine error code, opus_defines.h. -/
def OPUS_BAD_ARG : Int := -1

/-- Opus engine error code, opus_defines.h. -/
def OPUS_BUFFER_TOO_SMALL : Int := -2

/-- Opus engine error code, opus_defines.h. -/
def OPUS_INTERNAL_ERROR : Int := -3

/-- Opus engine error code, opus_defines.h. -/
def OPUS_INVALID_PACKET : Int := -4

/-- Opus engine error code, opus_defines.h. -/
def OPUS_UNIMPLEMENTED : Int := -5

/-- Opus engine error code, opus_defines.h. -/
def OPUS_INVALID_STATE : Int := -6

/-- Opus engine error code, opus_defines.h. -/
def OPUS_ALLOC_FAIL : Int := -7

/-- Central error mapper, pj_opus.c lines 130-155. -/
def opus_to_pjsip_error_code (opus_error : Int) : PjStatus :=
  if opus_error = OPUS_BAD_ARG then PjStatus.einval
  else if opus_error = OPUS_BUFFER_TOO_SMALL then PjStatus.epcmTooShort
  else if opus_error = OPUS_INTERNAL_ERROR then PjStatus.efailed
  else if opus_error = OPUS_INVALID_PACKET then PjStatus.ebadBitstream
  else if opus_error = OPUS_UNIMPLEMENTED then PjStatus.enotsup
  else if opus_error = OPUS_INVALID_STATE then PjStatus.einvalidop
  else if opus_error = OPUS_ALLOC_FAIL then PjStatus.efailed
  else PjStatus.mediaError

/-- pjmedia media type of a codec descriptor. -/
inductive MediaType where
  | audio
  | video
  | application
deriving DecidableEq, Repr

/-- pjmedia frame type as used by this adapter. -/
inductive FrameType where
  | none
  | audio
deriving DecidableEq, Repr

/-- A pjmedia_frame.  Buffers are opaque: `buf` is `Option Nat`, where
`Option.none` models a NULL pointer and `some h` an abstract handle to
the caller-owned storage.  `timestamp` models the 64-bit counter. -/
structure Frame where
  type : FrameType
  buf : Option Nat
  size : Nat
  timestamp : Nat
deriving DecidableEq, Repr

/-- One name=value entry of an fmtp parameter array (pjmedia_codec_fmtp). -/
structure PjStrParam where
  name : String
  val : String
deriving DecidableEq, Repr

/-- The attr->info part of pjmedia_codec_param used by this adapter. -/
structure CodecInfoParam where
  channel_cnt : Nat
  clock_rate : Nat
  avg_bps : Nat
  max_bps : Nat
  frm_ptime : Nat
  pcm_bits_per_sample : Nat
  pt : Nat
deriving DecidableEq, Repr

/-- The attr->setting part of pjmedia_codec_param used by this adapter.
pj_bool_t flags are Bool (PJ_TRUE = 1, PJ_FALSE = 0). -/
structure CodecSetting where
  frm_per_pkt : Nat
  vad : Bool
  plc : Bool
  enc_fmtp : List PjStrParam
  dec_fmtp : List PjStrParam
deriving DecidableEq, Repr

/-- pjmedia_codec_param. -/
structure CodecParam where
  info : CodecInfoParam
  setting : CodecSetting
deriving DecidableEq, Repr

/-- pjmedia_codec_info, the codec descriptor. -/
structure CodecInfo where
  type : MediaType
  encoding_name : String
  clock_rate : Nat
  channel_cnt : Nat
  pt : Nat
deriving DecidableEq, Repr

/-- ASCII lower-casing of one character, as pj_tolower does. -/
def pj_tolower (c : Char) : Char :=
  if 65 ≤ c.toNat ∧ c.toNat ≤ 90 then Char.ofNat (c.toNat + 32) else c

/-- pj_stricmp(a, b) == 0: case-insensitive string equality. -/
def pj_stricmp_eq (a b : String) : Bool :=
  a.data.map pj_tolower == b.data.map pj_tolower

/-- pj_strtoul: parse the leading run of decimal digits, 0 if none. -/
def pj_strtoul (s : String) : Nat :=
  (s.data.takeWhile Char.isDigit).foldl (fun a c => a * 10 + (c.toNat - 48)) 0

/-- pj_utoa: decimal rendering of an unsigned value. -/
def pj_utoa (n : Nat) : String :=
  toString n

/-- Modelled from the spec: the well-known payload-type hint named in
the capability section.  The numeric constant PJMEDIA_RTP_PT_OPUS comes
from a header outside src/; its value is irrelevant to every claim. -/
def PJMEDIA_RTP_PT_OPUS : Nat := 120

/-- apply_opus_codec_params, pj_opus.c lines 160-190: rebuild the
dec_fmtp array from the settings, in source order, including the
duplicated stereo check. -/
def apply_opus_codec_params (attr : CodecParam) : CodecParam :=
  let fmtp : List PjStrParam := []
  let fmtp := if attr.setting.plc = false then fmtp ++ [⟨"useinbandfec", "0"⟩] else fmtp
  let fmtp := if attr.setting.vad = true then fmtp ++ [⟨"usedtx", "1"⟩] else fmtp
  let fmtp := if attr.info.channel_cnt = 2 then fmtp ++ [⟨"stereo", "1"⟩] else fmtp
  let fmtp := if attr.info.channel_cnt = 2 then fmtp ++ [⟨"stereo", "1"⟩] else fmtp
  let fmtp := if attr.info.clock_rate < 48000 then
      fmtp ++ [⟨"maxcodedaudiobandwidth", pj_utoa attr.info.clock_rate⟩] else fmtp
  { attr with setting := { attr.setting with dec_fmtp := fmtp } }

/-- opus_default_attr, pj_opus.c lines 332-372. -/
def opus_default_attr (id : CodecInfo) : PjStatus × CodecParam :=
  let attr : CodecParam :=
    { info := { channel_cnt := 1, clock_rate := 16000, avg_bps := 20000,
                max_bps := 32000, frm_ptime := 10, pcm_bits_per_sample := 16,
                pt := id.pt },
      setting := { frm_per_pkt := 1, vad := false, plc := true,
                   enc_fmtp := [], dec_fmtp := [] } }
  (PjStatus.success, apply_opus_codec_params attr)

/-- opus_test_alloc, pj_opus.c lines 296-327. -/
def opus_test_alloc (info : CodecInfo) : PjStatus :=
  if info.type ≠ MediaType.audio then PjStatus.eunsup
  else if pj_stricmp_eq info.encoding_name "opus" = false then PjStatus.eunsup
  else if info.clock_rate = 8000 ∨ info.clock_rate = 12000 ∨
          info.clock_rate = 16000 ∨ info.clock_rate = 24000 ∨
          info.clock_rate = 48000 then PjStatus.success
  else PjStatus.eunsup

/-- opus_enum_codecs, pj_opus.c lines 377-403: PJ_ASSERT_RETURN on
count = 0, otherwise exactly one canonical descriptor. -/
def opus_enum_codecs (count : Nat) : PjStatus × List CodecInfo :=
  if count = 0 then (PjStatus.einval, [])
  else (PjStatus.success,
        [{ type := MediaType.audio, encoding_name := "opus",
           clock_rate := 48000, channel_cnt := 1, pt := PJMEDIA_RTP_PT_OPUS }])

/-- The process-wide opus_factory singleton fields this model tracks:
the endpoint registration, the shared pool, the free-list mutex.
`Option.none` models a NULL handle. -/
structure OpusFactoryState where
  endpt : Option Nat
  pool : Option Nat
  mutex : Option Nat
deriving DecidableEq, Repr

/-- pjmedia_codec_opus_init, pj_opus.c lines 192-249.  Collaborator
results are parameters: `newPool` is what pjmedia_endpt_create_pool
returns, `mutexRes` what pj_mutex_create_simple produces (the handle
on success, a status on failure), `codecMgr` what
pjmedia_endpt_get_codec_mgr returns, and `regStatus` what
pjmedia_codec_mgr_register_factory returns. -/
def pjmedia_codec_opus_init (st : OpusFactoryState) (endpt : Nat)
    (newPool : Option Nat) (mutexRes : Except PjStatus Nat)
    (codecMgr : Option Nat) (regStatus : PjStatus) :
    PjStatus × OpusFactoryState :=
  if st.endpt.isSome then (PjStatus.success, st)
  else
    let st1 := { st with endpt := some endpt }
    match newPool with
    | Option.none => (PjStatus.enomem, st1)
    | some p =>
      let st2 := { st1 with pool := some p }
      match mutexRes with
      | Except.error s => (s, { st2 with mutex := Option.none, pool := Option.none })
      | Except.ok m =>
        let st3 := { st2 with mutex := some m }
        match codecMgr with
        | Option.none => (PjStatus.einvalidop, st3)
        | some _ =>
          if regStatus = PjStatus.success then (PjStatus.success, st3)
          else (regStatus, st3)

/-- pjmedia_codec_opus_deinit, pj_opus.c lines 255-291.  `codecMgr` is
what pjmedia_endpt_get_codec_mgr returns and `unregStatus` what
pjmedia_codec_mgr_unregister_factory returns. -/
def pjmedia_codec_opus_deinit (st : OpusFactoryState)
    (codecMgr : Option Nat) (unregStatus : PjStatus) :
    PjStatus × OpusFactoryState :=
  match st.endpt with
  | Option.none => (PjStatus.success, st)
  | some _ =>
    match codecMgr with
    | Option.none => (PjStatus.einvalidop, { st with endpt := Option.none })
    | some _ =>
      (unregStatus,
       { st with endpt := Option.none, mutex := Option.none, pool := Option.none })

/-- Opus bandwidth ceilings passed via OPUS_SET_MAX_BANDWIDTH. -/
inductive OpusBandwidth where
  | narrowband
  | mediumband
  | wideband
  | superwideband
  | fullband
deriving DecidableEq, Repr

/-- An opus_encoder_ctl directive issued during open. -/
inductive EncCtl where
  | setComplexity (v : Int)
  | setSignalVoice
  | setInbandFec (v : Nat)
  | setBitrate (v : Nat)
  | setMaxBandwidth (b : OpusBandwidth)
  | setDtx (v : Nat)
deriving DecidableEq, Repr

/-- The tiered OPUS_SET_MAX_BANDWIDTH selection of the
maxcodedaudiobandwidth branch, pj_opus.c lines 549-560. -/
def bandwidth_ctl (v : Nat) : List EncCtl :=
  if v ≤ 8000 then [EncCtl.setMaxBandwidth OpusBandwidth.narrowband]
  else if v ≤ 12000 then [EncCtl.setMaxBandwidth OpusBandwidth.mediumband]
  else if v ≤ 16000 then [EncCtl.setMaxBandwidth OpusBandwidth.wideband]
  else if v ≤ 24000 then [EncCtl.setMaxBandwidth OpusBandwidth.superwideband]
  else if v ≤ 48000 then [EncCtl.setMaxBandwidth OpusBandwidth.fullband]
  else []

/-- The incoming enc_fmtp loop of opus_codec_open, pj_opus.c lines
534-566, returning the encoder-ctl directives it issues in order.
Faithful to the source control flow: the else-if chain matches at most
one branch per element, and only the useinbandfec branch executes
`break` (ends the recursion); the other branches continue the loop. -/
def fmtp_loop : List PjStrParam → List EncCtl
  | [] => []
  | p :: rest =>
    if pj_stricmp_eq p.name "useinbandfec" then
      [EncCtl.setInbandFec (pj_strtoul p.val)]
    else if pj_stricmp_eq p.name "maxaveragebitrate" then
      (if 6000 ≤ pj_strtoul p.val ∧ pj_strtoul p.val ≤ 510000 then
        [EncCtl.setBitrate (pj_strtoul p.val)] else []) ++ fmtp_loop rest
    else if pj_stricmp_eq p.name "maxcodedaudiobandwidth" then
      bandwidth_ctl (pj_strtoul p.val) ++ fmtp_loop rest
    else if pj_stricmp_eq p.name "usedtx" then
      EncCtl.setDtx (pj_strtoul p.val) :: fmtp_loop rest
    else fmtp_loop rest

/-- The directives a single fmtp element would issue on its own (the
body of the else-if chain of the loop, without the loop). -/
def elem_directives (p : PjStrParam) : List EncCtl :=
  if pj_stricmp_eq p.name "useinbandfec" then
    [EncCtl.setInbandFec (pj_strtoul p.val)]
  else if pj_stricmp_eq p.name "maxaveragebitrate" then
    if 6000 ≤ pj_strtoul p.val ∧ pj_strtoul p.val ≤ 510000 then
      [EncCtl.setBitrate (pj_strtoul p.val)] else []
  else if pj_stricmp_eq p.name "maxcodedaudiobandwidth" then
    bandwidth_ctl (pj_strtoul p.val)
  else if pj_stricmp_eq p.name "usedtx" then
    [EncCtl.setDtx (pj_strtoul p.val)]
  else []

/-- The prefix of the parameter array the loop actually visits: every
element up to and including the first useinbandfec match. -/
def take_through_fec : List PjStrParam → List PjStrParam
  | [] => []
  | p :: rest =>
    if pj_stricmp_eq p.name "useinbandfec" then [p]
    else p :: take_through_fec rest

/-- The per-instance ready flags of struct opus_private. -/
structure OpusPrivate where
  enc_ready : Bool
  dec_ready : Bool
deriving DecidableEq, Repr

/-- opus_codec_open, pj_opus.c lines 496-586.  `encInitRet` and
`decInitRet` are what opus_encoder_init and opus_decoder_init return
(0 = OPUS_OK).  The result carries the status, the ready flags after
the call, and the encoder-ctl directives issued.  The source asserts
`enc_ready = false ∧ dec_ready = false` on entry (pj_assert). -/
def opus_codec_open (encInitRet decInitRet : Int) (attr : CodecParam)
    (st : OpusPrivate) : PjStatus × OpusPrivate × List EncCtl :=
  if encInitRet ≠ 0 then (PjStatus.einval, st, [])
  else
    let ctls := EncCtl.setComplexity 2 :: EncCtl.setSignalVoice ::
                fmtp_loop attr.setting.enc_fmtp
    let st1 := { st with enc_ready := true }
    if decInitRet ≠ 0 then (PjStatus.einval, st1, ctls)
    else (PjStatus.success, { st1 with dec_ready := true }, ctls)

/-- opus_codec_close, pj_opus.c lines 591-601. -/
def opus_codec_close (st : OpusPrivate) : PjStatus × OpusPrivate :=
  (PjStatus.success, { st with enc_ready := false, dec_ready := false })

/-- The argument record of one opus_encode engine call. -/
structure EncodeCall where
  pcm : Option Nat
  sampleCount : Nat
  outBuf : Option Nat
  maxBytes : Nat
deriving DecidableEq, Repr

/-- opus_codec_encode, pj_opus.c lines 617-647.  `engine` is the
opus_encode collaborator; the record of what was passed to it is
returned alongside the status and the output frame. -/
def opus_codec_encode (engine : EncodeCall → Int) (input : Frame)
    (output_buf_len : Nat) (output : Frame) :
    PjStatus × Frame × EncodeCall :=
  let output1 := { output with size := 0 }
  let call : EncodeCall :=
    { pcm := input.buf, sampleCount := input.size / 2,
      outBuf := output.buf, maxBytes := output_buf_len }
  let ret := engine call
  if ret < 0 then (opus_to_pjsip_error_code ret, output1, call)
  else (PjStatus.success,
        { output1 with size := ret.toNat, type := FrameType.audio,
                       timestamp := input.timestamp }, call)

/-- The argument record of one opus_decode engine call. -/
structure DecodeCall where
  pkt : Option Nat
  pktSize : Nat
  pcmBound : Nat
  fecFlag : Nat
deriving DecidableEq, Repr

/-- opus_codec_decode, pj_opus.c lines 676-707.  Note the sample bound
passed to the engine is `output->size >> 1`; the output_buf_len
argument of the adapter call is never read. -/
def opus_codec_decode (engine : DecodeCall → Int) (input : Frame)
    (output_buf_len : Nat) (output : Frame) :
    PjStatus × Frame × DecodeCall :=
  let call : DecodeCall :=
    { pkt := input.buf, pktSize := input.size,
      pcmBound := output.size / 2, fecFlag := 0 }
  let ret := engine call
  if ret ≤ 0 then
    (PjStatus.success,
     { output with type := FrameType.none, buf := Option.none, size := 0 }, call)
  else
    (PjStatus.success,
     { output with size := ret.toNat, type := FrameType.audio,
                   timestamp := input.timestamp }, call)

/-- opus_codec_recover, pj_opus.c lines 712-747: loss concealment with
a NULL packet, sample bound `output_buf_len >> 1`, FEC flag 0. -/
def opus_codec_recover (engine : DecodeCall → Int) (output_buf_len : Nat)
    (output : Frame) : PjStatus × Frame × DecodeCall :=
  let call : DecodeCall :=
    { pkt := Option.none, pktSize := 0,
      pcmBound := output_buf_len / 2, fecFlag := 0 }
  let ret := engine call
  if ret < 0 then (PjStatus.einval, output, call)
  else if ret = 0 then
    (PjStatus.success,
     { output with type := FrameType.none, buf := Option.none, size := 0 }, call)
  else
    (PjStatus.success,
     { output with size := ret.toNat, type := FrameType.audio }, call)

/-- A concrete codec_param used by concrete-input theorems. -/
def sampleAttr : CodecParam :=
  { info := { channel_cnt := 1, clock_rate := 16000, avg_bps := 20000,
              max_bps := 32000, frm_ptime := 10, pcm_bits_per_sample := 16,
              pt := 96 },
    setting := { frm_per_pkt := 1, vad := false, plc := true,
                 enc_fmtp := [], dec_fmtp := [] } }

/-- A concrete input frame used by concrete-input theorems. -/
def frameIn : Frame :=
  { type := FrameType.audio, buf := some 1, size := 20, timestamp := 77 }

/-- A concrete output frame used by concrete-input theorems; its size
field (50) differs from the output_buf_len the call sites pass. -/
def frameOut : Frame :=
  { type := FrameType.audio, buf := some 2, size := 50, timestamp := 5 }

/-- The concrete parameter set of the C8 instance: stereo, 24 kHz,
vad on, plc on. -/
def sampleC8Attr : CodecParam :=
  { info := { channel_cnt := 2, clock_rate := 24000, avg_bps := 20000,
              max_bps := 32000, frm_ptime := 10, pcm_bits_per_sample := 16,
              pt := 96 },
    setting := { frm_per_pkt := 1, vad := true, plc := true,
                 enc_fmtp := [], dec_fmtp := [] } }

/-- C1 counterexample: with the encoder accepted and the decoder
rejected (decInitRet = -1), open returns InvalidArgument yet the ready
flags are not both false afterwards: enc_ready was already set true
before the decoder init, a partial-ready state. -/
theorem opus_open_decoder_fail_partial_ready :
    (opus_codec_open 0 (-1) sampleAttr ⟨false, false⟩).1 = PjStatus.einval ∧
    ¬ ((opus_codec_open 0 (-1) sampleAttr ⟨false, false⟩).2.1.enc_ready = false ∧
       (opus_codec_open 0 (-1) sampleAttr ⟨false, false⟩).2.1.dec_ready = false) := by
  constructor
  · rfl
  · intro h
    exact absurd h.1 (by decide)

/-- C1 amended: starting from the asserted entry state (both flags
false), open returns InvalidArgument with both flags still false when
the engine rejects the encoder; InvalidArgument with enc_ready = true
and dec_ready = false when the encoder succeeds but the engine rejects
the decoder (a partial-ready state); and success with both flags true
when both succeed. -/
theorem opus_open_status_flags (e d : Int) (attr : CodecParam) :
    ((opus_codec_open e d attr ⟨false, false⟩).1,
     (opus_codec_open e d attr ⟨false, false⟩).2.1) =
      if e ≠ 0 then (PjStatus.einval, (⟨false, false⟩ : OpusPrivate))
      else if d ≠ 0 then (PjStatus.einval, (⟨true, false⟩ : OpusPrivate))
      else (PjStatus.success, (⟨true, true⟩ : OpusPrivate)) := by
  unfold opus_codec_open
  by_cases he : e ≠ 0
  · simp [he]
  · by_cases hd : d ≠ 0 <;> simp [he, hd]

/-- C2 counterexample: an incoming parameter array holding two
recognized names, maxaveragebitrate then usedtx, makes both branches
fire (two directives), so the loop does not stop at the first
recognized parameter. -/
theorem fmtp_loop_two_branches_fire :
    fmtp_loop [⟨"maxaveragebitrate", "8000"⟩, ⟨"usedtx", "1"⟩] =
      [EncCtl.setBitrate 8000, EncCtl.setDtx 1] ∧
    ¬ (fmtp_loop [⟨"maxaveragebitrate", "8000"⟩, ⟨"usedtx", "1"⟩]).length ≤ 1 := by
  constructor
  · rfl
  · decide

/-- C2 amended: per element the else-if chain fires at most one branch,
and the loop ends early only at the first useinbandfec match (the only
branch with a break); every recognized parameter up to and including
that point is applied, and when no useinbandfec entry is present every
recognized parameter in the array is applied.  Formally, the directive
list equals the concatenation of the per-element directives over the
prefix ending at the first useinbandfec match. -/
theorem fmtp_loop_stops_only_at_first_fec (ps : List PjStrParam) :
    fmtp_loop ps = List.flatten (List.map elem_directives (take_through_fec ps)) := by
  induction ps with
  | nil => rfl
  | cons p rest ih =>
    by_cases h1 : pj_stricmp_eq p.name "useinbandfec"
    · simp [fmtp_loop, take_through_fec, elem_directives, h1]
    · by_cases h2 : pj_stricmp_eq p.name "maxaveragebitrate"
      · simp [fmtp_loop, take_through_fec, elem_directives, h1, h2, ih]
      · by_cases h3 : pj_stricmp_eq p.name "maxcodedaudiobandwidth"
        · simp [fmtp_loop, take_through_fec, elem_directives, h1, h2, h3, ih]
        · by_cases h4 : pj_stricmp_eq p.name "usedtx"
          · simp [fmtp_loop, take_through_fec, elem_directives, h1, h2, h3, h4, ih]
          · simp [fmtp_loop, take_through_fec, elem_directives, h1, h2, h3, h4, ih]

/-- C3 counterexample: deinitialize on a never-initialized factory
(endpt NULL) returns success, not a NotInitialized failure. -/
theorem deinit_uninitialized_returns_success :
    (pjmedia_codec_opus_deinit ⟨Option.none, Option.none, Option.none⟩
        (some 1) (PjStatus.other 3)).1 = PjStatus.success := by
  rfl

/-- C3 amended: deinitialize called when the factory was never
initialized, or after a prior deinitialize (endpt NULL), is a no-op
that returns success and leaves the factory state unchanged. -/
theorem deinit_uninitialized_noop (pool mutex : Option Nat)
    (codecMgr : Option Nat) (unregStatus : PjStatus) :
    pjmedia_codec_opus_deinit ⟨Option.none, pool, mutex⟩ codecMgr unregStatus =
      (PjStatus.success, ⟨Option.none, pool, mutex⟩) := by
  rfl

/-- C4 counterexample: from the uninitialized state, with the pool
created (handle 7), the mutex created (handle 3), the codec manager
present and registration failing with a framework status, init reports
the failure but leaves the pool and mutex allocated and the endpoint
set: no rollback and not the uninitialized state. -/
theorem init_register_fail_no_rollback :
    pjmedia_codec_opus_init ⟨Option.none, Option.none, Option.none⟩ 1
        (some 7) (Except.ok 3) (some 1) (PjStatus.other 5) =
      (PjStatus.other 5, ⟨some 1, some 7, some 3⟩) := by
  rfl

/-- C4 amended: when registration is reached (fresh state, pool and
mutex created, codec manager present), init returns the registration
status unchanged and always leaves the endpoint set, the pool
allocated and the mutex alive — on registration failure nothing is
rolled back.  Rollback of pool and mutex happens only on the
mutex-creation failure path, and even there the endpoint stays set. -/
theorem init_register_fail_state (endpt p m mgr : Nat) (regStatus : PjStatus) :
    pjmedia_codec_opus_init ⟨Option.none, Option.none, Option.none⟩ endpt
        (some p) (Except.ok m) (some mgr) regStatus =
      (regStatus, ⟨some endpt, some p, some m⟩) := by
  unfold pjmedia_codec_opus_init
  by_cases h : regStatus = PjStatus.success <;> simp [h]

/-- C5 counterexample: with output capacity 100 and an output frame
whose size field is 50, decode passes sample bound 25 = 50 / 2 to the
engine, not 50 = 100 / 2: the bound derives from the frame size
field, not from the caller-supplied capacity argument. -/
theorem decode_bound_not_capacity :
    (opus_codec_decode (fun _ => 1) frameIn 100 frameOut).2.2.pcmBound = 25 ∧
    ¬ (opus_codec_decode (fun _ => 1) frameIn 100 frameOut).2.2.pcmBound = 100 / 2 := by
  constructor
  · rfl
  · decide

/-- C5 amended: for every decode call, the engine receives the input
buffer and size, a sample-count bound equal to the output frame size
field divided by 2 (the output_buf_len argument is never read), and a
forward-error-correction decode flag of 0. -/
theorem decode_engine_args (engine : DecodeCall → Int) (input : Frame)
    (output_buf_len : Nat) (output : Frame) :
    (opus_codec_decode engine input output_buf_len output).2.2 =
      { pkt := input.buf, pktSize := input.size,
        pcmBound := output.size / 2, fecFlag := 0 } := by
  unfold opus_codec_decode
  by_cases h : engine ⟨input.buf, input.size, output.size / 2, 0⟩ ≤ 0 <;> simp [h]

/-- C6: decode always returns success at the adapter layer.  When the
engine returns a value at most 0 the output frame has kind none, a
null payload and size 0; when the engine returns a positive value the
output frame has kind audio, size equal to that value, and the
timestamp copied unchanged from the input frame. -/
theorem decode_never_errors (engine : DecodeCall → Int) (input : Frame)
    (output_buf_len : Nat) (output : Frame) :
    (opus_codec_decode engine input output_buf_len output).1 = PjStatus.success ∧
    (engine ⟨input.buf, input.size, output.size / 2, 0⟩ ≤ 0 →
      (opus_codec_decode engine input output_buf_len output).2.1 =
        { output with type := FrameType.none, buf := Option.none, size := 0 }) ∧
    (0 < engine ⟨input.buf, input.size, output.size / 2, 0⟩ →
      (opus_codec_decode engine input output_buf_len output).2.1 =
        { output with size := (engine ⟨input.buf, input.size, output.size / 2, 0⟩).toNat,
                      type := FrameType.audio, timestamp := input.timestamp }) := by
  by_cases h : engine ⟨input.buf, input.size, output.size / 2, 0⟩ ≤ 0
  · refine ⟨by simp [opus_codec_decode, h], fun _ => by simp [opus_codec_decode, h], fun hp => ?_⟩
    omega
  · refine ⟨by simp [opus_codec_decode, h], fun hle => ?_, fun _ => by simp [opus_codec_decode, h]⟩
    exact absurd hle h

/-- C6 witness: at a concrete engine returning 3 and concrete frames,
decode succeeds with an audio frame of size 3 stamped with the input
timestamp. -/
theorem decode_never_errors_witness :
    (opus_codec_decode (fun _ => 3) frameIn 100 frameOut).1 = PjStatus.success ∧
    (opus_codec_decode (fun _ => 3) frameIn 100 frameOut).2.1 =
      { frameOut with size := 3, type := FrameType.audio, timestamp := frameIn.timestamp } := by
  have h := decode_never_errors (fun _ => 3) frameIn 100 frameOut
  exact ⟨h.1, h.2.2 (by decide)⟩

/-- C7: recoverLostFrame returns InvalidArgument exactly on a negative
engine return (leaving the output frame untouched); an engine return
of 0 yields success with a kind none, null payload, empty frame; a
positive return N yields success with kind audio, size N, and the
output frame timestamp field left as it was (no timestamp written,
unlike decode). -/
theorem recover_cases (engine : DecodeCall → Int) (output_buf_len : Nat)
    (output : Frame) :
    (engine ⟨Option.none, 0, output_buf_len / 2, 0⟩ < 0 →
      opus_codec_recover engine output_buf_len output =
        (PjStatus.einval, output, ⟨Option.none, 0, output_buf_len / 2, 0⟩)) ∧
    (engine ⟨Option.none, 0, output_buf_len / 2, 0⟩ = 0 →
      (opus_codec_recover engine output_buf_len output).1 = PjStatus.success ∧
      (opus_codec_recover engine output_buf_len output).2.1 =
        { output with type := FrameType.none, buf := Option.none, size := 0 }) ∧
    (0 < engine ⟨Option.none, 0, output_buf_len / 2, 0⟩ →
      (opus_codec_recover engine output_buf_len output).1 = PjStatus.success ∧
      (opus_codec_recover engine output_buf_len output).2.1 =
        { output with size := (engine ⟨Option.none, 0, output_buf_len / 2, 0⟩).toNat,
                      type := FrameType.audio }) := by
  refine ⟨fun h => ?_, fun h => ?_, fun h => ?_⟩
  · simp [opus_codec_recover, h]
  · simp [opus_codec_recover, h]
  · have h1 : ¬ engine ⟨Option.none, 0, output_buf_len / 2, 0⟩ < 0 := by omega
    have h2 : ¬ engine ⟨Option.none, 0, output_buf_len / 2, 0⟩ = 0 := by omega
    simp [opus_codec_recover, h1, h2]

/-- C7 witness: at a concrete engine returning 5, recover succeeds with
an audio frame of size 5 whose timestamp field is untouched. -/
theorem recover_cases_witness :
    (opus_codec_recover (fun _ => 5) 100 frameOut).1 = PjStatus.success ∧
    (opus_codec_recover (fun _ => 5) 100 frameOut).2.1 =
      { frameOut with size := 5, type := FrameType.audio } := by
  exact (recover_cases (fun _ => 5) 100 frameOut).2.2 (by decide)

/-- C8: the advertised-parameter derivation appends entries in the
exact source rule order (useinbandfec=0 iff plc is false, usedtx=1 iff
vad is true, stereo=1 twice iff channel count is 2,
maxcodedaudiobandwidth=<clock rate as decimal> iff the clock rate is
below 48000), and in particular the stereo, 24 kHz, vad, plc setting
yields exactly usedtx=1, stereo=1, stereo=1,
maxcodedaudiobandwidth=24000 with no useinbandfec entry. -/
theorem apply_params_rules :
    (∀ attr : CodecParam,
      (apply_opus_codec_params attr).setting.dec_fmtp =
        (if attr.setting.plc = false then [(⟨"useinbandfec", "0"⟩ : PjStrParam)] else []) ++
        (if attr.setting.vad = true then [(⟨"usedtx", "1"⟩ : PjStrParam)] else []) ++
        (if attr.info.channel_cnt = 2 then
          [(⟨"stereo", "1"⟩ : PjStrParam), (⟨"stereo", "1"⟩ : PjStrParam)] else []) ++
        (if attr.info.clock_rate < 48000 then
          [(⟨"maxcodedaudiobandwidth", pj_utoa attr.info.clock_rate⟩ : PjStrParam)]
         else [])) ∧
    (apply_opus_codec_params sampleC8Attr).setting.dec_fmtp =
      [⟨"usedtx", "1"⟩, ⟨"stereo", "1"⟩, ⟨"stereo", "1"⟩,
       ⟨"maxcodedaudiobandwidth", "24000"⟩] := by
  constructor
  · intro attr
    unfold apply_opus_codec_params
    split_ifs <;> simp_all
  · rfl

/-- C9: whenever the caller provides capacity for at least one entry,
enumerateCodecs returns success and exactly one descriptor, with media
type audio, name opus, clock rate 48000 and channel count 1. -/
theorem enum_codecs_single (count : Nat) (h : 1 ≤ count) :
    opus_enum_codecs count =
      (PjStatus.success,
       [{ type := MediaType.audio, encoding_name := "opus", clock_rate := 48000,
          channel_cnt := 1, pt := PJMEDIA_RTP_PT_OPUS }]) := by
  unfold opus_enum_codecs
  have hc : count ≠ 0 := by omega
  simp [hc]

/-- C9 witness: capacity 1 yields the single canonical descriptor. -/
theorem enum_codecs_single_witness :
    opus_enum_codecs 1 =
      (PjStatus.success,
       [{ type := MediaType.audio, encoding_name := "opus", clock_rate := 48000,
          channel_cnt := 1, pt := PJMEDIA_RTP_PT_OPUS }]) :=
  enum_codecs_single 1 (by decide)

/-- C10: when the engine encode operation returns a negative code, encode
returns the centrally mapped error and the output frame is the input
output frame with only its size zeroed (kind and timestamp untouched);
when the engine returns a non-negative value, encode succeeds and only
then writes kind audio, the returned size and the input timestamp. -/
theorem encode_error_path (engine : EncodeCall → Int) (input : Frame)
    (output_buf_len : Nat) (output : Frame) :
    (engine ⟨input.buf, input.size / 2, output.buf, output_buf_len⟩ < 0 →
      opus_codec_encode engine input output_buf_len output =
        (opus_to_pjsip_error_code
           (engine ⟨input.buf, input.size / 2, output.buf, output_buf_len⟩),
         { output with size := 0 },
         ⟨input.buf, input.size / 2, output.buf, output_buf_len⟩)) ∧
    (0 ≤ engine ⟨input.buf, input.size / 2, output.buf, output_buf_len⟩ →
      opus_codec_encode engine input output_buf_len output =
        (PjStatus.success,
         { output with
             size := (engine ⟨input.buf, input.size / 2, output.buf, output_buf_len⟩).toNat,
             type := FrameType.audio, timestamp := input.timestamp },
         ⟨input.buf, input.size / 2, output.buf, output_buf_len⟩)) := by
  refine ⟨fun h => ?_, fun h => ?_⟩
  · simp [opus_codec_encode, h]
  · have h1 : ¬ engine ⟨input.buf, input.size / 2, output.buf, output_buf_len⟩ < 0 := by
      omega
    simp [opus_codec_encode, h1]

/-- C10 witness: at a concrete engine returning OPUS_INVALID_PACKET,
encode reports the centrally mapped BadBitstream error with the output
size zeroed and kind and timestamp untouched. -/
theorem encode_error_path_witness :
    opus_codec_encode (fun _ => -4) frameIn 60 frameOut =
      (opus_to_pjsip_error_code (-4), { frameOut with size := 0 },
       ⟨frameIn.buf, frameIn.size / 2, frameOut.buf, 60⟩) ∧
    opus_to_pjsip_error_code (-4) = PjStatus.ebadBitstream := by
  exact ⟨(encode_error_path (fun _ => -4) frameIn 60 frameOut).1 (by decide), by decide⟩
